import Mathlib

/-!
# Student Services Analytics: formal model

A shallow embedding of the two batch components of the
`student-services-analytics` repository:

* `scripts/generate_data.py` — the synthetic data generator.  Each row of
  the output table is a pure function of the raw random draws it consumes;
  draws are modelled as explicit rational inputs (`RowDraws`), and the
  process-wide pseudorandom source seeded once at start is modelled as a
  deterministic stream derived from the seed.  Floating point is modelled
  by exact rationals; `numpy.round` rounds half to even, which `rte` mirrors.
* `notebooks/services_analysis.py` — the analytics report.  Grouped
  aggregation views are pure functions over a table (`List Row`); the wait
  bucket column mirrors `pd.cut` with bins `[0, 5, 10, 15, 20, 50]`, whose
  intervals are left-open and right-closed by pandas default.
-/

/-- One interaction record: the sixteen columns built by
`generate_data.py` lines 118–135 and read back by the report. -/
structure Row where
  inquiry_id : ℤ
  department : String
  inquiry_type : String
  channel : String
  student_type : String
  quarter : String
  month : String
  day_of_week : String
  time_slot : String
  staff_member : String
  wait_time_min : ℚ
  service_time_min : ℚ
  resolution : String
  escalated : String
  callback_required : String
  satisfaction_score : ℚ
  deriving Repr, DecidableEq

/-- Model of `np.clip(x, lo, hi)`: elementwise `max lo (min x hi)`. -/
def clip (x lo hi : ℚ) : ℚ := max lo (min x hi)

/-- Rounding of a rational as `numpy` does: rounding to the nearest integer, ties to even
(banker's rounding), as used by `.round(1)` after scaling by 10. -/
def rte (q : ℚ) : ℤ :=
  if q - ⌊q⌋ < 1/2 then ⌊q⌋
  else if 1/2 < q - ⌊q⌋ then ⌊q⌋ + 1
  else if 2 ∣ ⌊q⌋ then ⌊q⌋ else ⌊q⌋ + 1

/-- Model of `.round(1)`: round to one decimal place. -/
def round1 (x : ℚ) : ℚ := (rte (10 * x) : ℚ) / 10

/-- Model of `np.random.choice(cats, p=probs)` driven by a uniform draw `u ∈ [0,1)`:
walk the cumulative distribution, picking the first category whose
cumulative probability exceeds `u`. -/
def choice (cats : List (String × ℚ)) (u : ℚ) : String :=
  match cats with
  | [] => ""
  | (c, p) :: rest => if u < p then c else choice rest (u - p)

/-- Uniform `np.random.choice` over a list, driven by a draw `u ∈ [0,1)`. -/
def uniformChoice (l : List String) (u : ℚ) : String :=
  l.getD (Int.toNat ⌊u * l.length⌋) ""

/-!
## Analytics report (`notebooks/services_analysis.py`)

A table is a list of rows.  Grouped aggregation views are pure functions
of the table.
-/

/-- Model of `pd.cut(df["wait_time_min"], bins=[0, 5, 10, 15, 20, 50], labels=...)`
(line 272).  pandas default intervals are left-open, right-closed:
`(0,5], (5,10], (10,15], (15,20], (20,50]`; values at or below 0, or
above 50, fall in no bucket (`NaN`). -/
def waitBucket (w : ℚ) : Option String :=
  if 0 < w ∧ w ≤ 5 then some "0-5 min"
  else if 5 < w ∧ w ≤ 10 then some "5-10 min"
  else if 10 < w ∧ w ≤ 15 then some "10-15 min"
  else if 15 < w ∧ w ≤ 20 then some "15-20 min"
  else if 20 < w ∧ w ≤ 50 then some "20+ min"
  else none

/-- The rows of the `sat_by_wait` group for a given bucket label (line 276). -/
def bucketRows (t : List Row) (b : String) : List Row :=
  t.filter fun r => waitBucket r.wait_time_min == some b

/-- The `count` aggregate of the `sat_by_wait` view (line 277): the number of
rows in a given wait bucket. -/
def bucketCount (t : List Row) (b : String) : ℕ :=
  (bucketRows t b).length

/-- The `avg_sat` aggregate of the `sat_by_wait` view (line 278):
mean satisfaction of the rows in a bucket (division by zero yields 0 in ℚ,
standing for an absent group). -/
def bucketMeanSat (t : List Row) (b : String) : ℚ :=
  ((bucketRows t b).map Row.satisfaction_score).sum / bucketCount t b

/-- Significance verdict of the t-test printout (line 263):
`'Yes (p < 0.05)' if p_val < 0.05 else 'No'`. -/
def ttestVerdict (p : ℚ) : String :=
  if p < 5/100 then "Yes (p < 0.05)" else "No"

/-- Significance verdict of the correlation printout (line 269):
`'Significant negative correlation' if corr < 0 and corr_p < 0.05
else 'Not significant'`. -/
def corrVerdict (corr p : ℚ) : String :=
  if corr < 0 ∧ p < 5/100 then "Significant negative correlation"
  else "Not significant"

/-- The distinct values of a column, in first-appearance order: the group
keys of a `groupby` over that column. -/
def groupKeys (t : List Row) (f : Row → String) : List String :=
  (t.map f).dedup

/-- Rows of one group: the rows whose column `f` equals `v`. -/
def countBy (t : List Row) (f : Row → String) (v : String) : ℕ :=
  (t.filter fun r => f r == v).length

/-- The `volume` aggregate of `dept_kpis` (line 59): per-department
row count. -/
def deptVolume (t : List Row) (d : String) : ℕ :=
  countBy t Row.department d

/-- The `pct` lambda of `channel_stats` (line 164),
`lambda x: len(x) / len(df) * 100`: per-channel percentage share before
the `.round(2)` that line 169 applies to the whole view. -/
def channelPct (t : List Row) (c : String) : ℚ :=
  (countBy t Row.channel c : ℚ) / (t.length : ℚ) * 100

/-- Model of `.round(2)`: round to two decimal places, ties to even. -/
def round2 (x : ℚ) : ℚ := (rte (100 * x) : ℚ) / 100

/-- The per-channel percentage share as `channel_stats` reports it: the
line-164 lambda value rounded to two decimals by line 169's `.round(2)`. -/
def channelPctR (t : List Row) (c : String) : ℚ :=
  round2 (channelPct t c)

/-- An extended row after line 272 executes: the original sixteen columns
plus the derived `wait_bucket` column. -/
structure RowB extends Row where
  wait_bucket : Option String
  deriving Repr, DecidableEq

/-- The single in-place table mutation of the report:
`df["wait_bucket"] = pd.cut(...)` (line 272) adds one derived column,
leaving every original column of every row as loaded. -/
def addWaitBucket (t : List Row) : List RowB :=
  t.map fun r => { toRow := r, wait_bucket := waitBucket r.wait_time_min }

/-!
## Data generator (`scripts/generate_data.py`)

Each field of a row consumes raw random draws.  `RowDraws` packages the
draws one row consumes: a uniform draw in `[0,1)` for every categorical
field, and a base value for every numeric field (the exponential and
normal variates of lines 78, 85 and 102, taken as arbitrary rationals).
-/

/-- The raw random draws one generated row consumes. -/
structure RowDraws where
  deptU : ℚ
  channelU : ℚ
  quarterU : ℚ
  monthU : ℚ
  dayU : ℚ
  hourU : ℚ
  staffU : ℚ
  inquiryU : ℚ
  studentU : ℚ
  baseWait : ℚ
  baseService : ℚ
  resolutionU : ℚ
  baseSat : ℚ
  callbackU : ℚ
  deriving Repr, DecidableEq

/-- Department distribution (lines 18–21). -/
def deptDist : List (String × ℚ) :=
  [("Financial Aid", 30/100), ("Registrar", 25/100),
   ("Student Business Services", 20/100), ("Admissions", 15/100),
   ("General Inquiry", 10/100)]

/-- Channel distribution (lines 24–27). -/
def channelDist : List (String × ℚ) :=
  [("Walk-In", 45/100), ("Phone", 25/100), ("Email", 20/100),
   ("Virtual Appointment", 10/100)]

/-- Quarter distribution (lines 30–33). -/
def quarterDist : List (String × ℚ) :=
  [("Fall 2024", 35/100), ("Winter 2025", 25/100), ("Spring 2025", 25/100),
   ("Summer 2025", 15/100)]

/-- The `month_map` lookup (lines 34–39). -/
def month_map (q : String) : List String :=
  if q = "Fall 2024" then ["Sep", "Oct", "Nov", "Dec"]
  else if q = "Winter 2025" then ["Jan", "Feb", "Mar"]
  else if q = "Spring 2025" then ["Apr", "May", "Jun"]
  else if q = "Summer 2025" then ["Jul", "Aug"]
  else []

/-- Day-of-week distribution (lines 43–46). -/
def dayDist : List (String × ℚ) :=
  [("Monday", 22/100), ("Tuesday", 20/100), ("Wednesday", 20/100),
   ("Thursday", 20/100), ("Friday", 18/100)]

/-- Time-slot distribution (lines 49–52). -/
def hourDist : List (String × ℚ) :=
  [("8-10 AM", 20/100), ("10-12 PM", 35/100), ("12-2 PM", 25/100),
   ("2-4 PM", 20/100)]

/-- The eight staff members, sampled uniformly (lines 55–58). -/
def staffList : List String :=
  ["Staff A", "Staff B", "Staff C", "Staff D", "Staff E", "Staff F",
   "Staff G", "Staff H"]

/-- The `inquiry_type_map` lookup (lines 61–67). -/
def inquiry_type_map (d : String) : List String :=
  if d = "Financial Aid" then
    ["FAFSA Status", "Award Letter", "Scholarship Inquiry", "Loan Questions",
     "Work-Study"]
  else if d = "Registrar" then
    ["Transcript Request", "Enrollment Verification", "Grade Change",
     "Graduation Check", "Add/Drop"]
  else if d = "Student Business Services" then
    ["Tuition Payment", "Refund Status", "Payment Plan", "Account Hold",
     "1098-T"]
  else if d = "Admissions" then
    ["Application Status", "Admission Decision", "Transfer Credits",
     "Orientation", "Residency"]
  else if d = "General Inquiry" then
    ["Campus Resources", "Department Referral", "Hours/Location",
     "General Question", "Complaint"]
  else []

/-- Student-type distribution (lines 71–74). -/
def studentDist : List (String × ℚ) :=
  [("Undergraduate", 55/100), ("Graduate", 20/100), ("Prospective", 15/100),
   ("Parent/Guardian", 10/100)]

/-- Resolution distribution (lines 92–95): the fixed prior
`(0.55, 0.20, 0.15, 0.10)`. -/
def resolutionDist : List (String × ℚ) :=
  [("Resolved on First Contact", 55/100), ("Follow-Up Required", 20/100),
   ("Escalated to Department", 15/100), ("Referred to Another Office", 10/100)]

/-- The `fcr_boost` adjustment (lines 98–99): computed by department, never used. -/
def fcr_boost (department : String) : ℚ :=
  (if department = "General Inquiry" then 15/100 else 0) +
  (if department = "Registrar" then 5/100 else 0)

/-- The `wait_adj` term (lines 79–81). -/
def wait_adj (channel quarter month : String) : ℚ :=
  (if channel = "Walk-In" then 5 else 0) +
  (if quarter = "Fall 2024" then 4 else 0) +
  (if month = "Sep" ∨ month = "Jan" then 3 else 0)

/-- The `service_adj` term (lines 86–88). -/
def service_adj (department channel : String) : ℚ :=
  (if department = "Financial Aid" then 5 else 0) +
  (if department = "Student Business Services" then 3 else 0) +
  (if channel = "Email" then -4 else 0)

/-- The `sat_adj` term (lines 103–106). -/
def sat_adj (resolution : String) (wait : ℚ) : ℚ :=
  (if resolution = "Resolved on First Contact" then 1/2 else 0) +
  (if resolution = "Escalated to Department" then -3/10 else 0) +
  (if wait > 20 then -2/5 else 0) +
  (if wait < 5 then 3/10 else 0)

/-- The `escalated` flag (line 110): `np.where(resolution == "Escalated to
Department", "Yes", "No")`. -/
def escalatedOf (resolution : String) : String :=
  if resolution = "Escalated to Department" then "Yes" else "No"

/-- The `callback` field (lines 113–115): the `Yes`/`No` coin (drawn for every row)
is kept only where `resolution == "Follow-Up Required"`. -/
def callbackOf (resolution : String) (coin : String) : String :=
  if resolution = "Follow-Up Required" then coin else "No"

/-- One generated row as a function of its index and raw draws, with the
`fcr_boost` computation abstracted over its table of per-department
constants (lines 15–115).  The boost is computed (line 98) but consumed by
no field of the row. -/
def genRowWithBoost (boost : String → ℚ) (idx : ℕ) (d : RowDraws) : Row :=
  let department := choice deptDist d.deptU
  let channel := choice channelDist d.channelU
  let quarter := choice quarterDist d.quarterU
  let month := uniformChoice (month_map quarter) d.monthU
  let wait := round1 (clip (d.baseWait + wait_adj channel quarter month) 0 45)
  let resolution := choice resolutionDist d.resolutionU
  let _fb := boost department
  { inquiry_id := 10001 + idx
    department := department
    inquiry_type := uniformChoice (inquiry_type_map department) d.inquiryU
    channel := channel
    student_type := choice studentDist d.studentU
    quarter := quarter
    month := month
    day_of_week := choice dayDist d.dayU
    time_slot := choice hourDist d.hourU
    staff_member := uniformChoice staffList d.staffU
    wait_time_min := wait
    service_time_min :=
      round1 (clip (d.baseService + service_adj department channel) 2 40)
    resolution := resolution
    escalated := escalatedOf resolution
    callback_required :=
      callbackOf resolution (choice [("Yes", 70/100), ("No", 30/100)] d.callbackU)
    satisfaction_score :=
      round1 (clip (d.baseSat + sat_adj resolution wait) 1 5) }

/-- One generated row, with the boost table the script computes. -/
def genRow (idx : ℕ) (d : RowDraws) : Row :=
  genRowWithBoost fcr_boost idx d

/-- One step of the modelled pseudorandom source: a 32-bit linear
congruential update standing for `np.random`'s deterministic state
update.  The exact update rule is opaque to every claim; what matters is
that it is a pure function of the previous state. -/
def lcg (s : ℕ) : ℕ := (s * 1103515245 + 12345) % 4294967296

/-- The k-th state of the pseudorandom source after seeding
(`np.random.seed(seed)`, line 11). -/
def streamNat (seed : ℕ) : ℕ → ℕ
  | 0 => lcg seed
  | k + 1 => lcg (streamNat seed k)

/-- The k-th uniform draw in `[0,1)` of the seeded source. -/
def unitDraw (seed k : ℕ) : ℚ := (streamNat seed k : ℚ) / 4294967296

/-- The draws row `i` of an `n`-row run consumes.  The script samples
field arrays one after the other, so field number `f` of row `i` consumes
draw number `f * n + i` of the seeded stream. -/
def drawsFor (seed n i : ℕ) : RowDraws :=
  { deptU := unitDraw seed i
    channelU := unitDraw seed (n + i)
    quarterU := unitDraw seed (2 * n + i)
    monthU := unitDraw seed (3 * n + i)
    dayU := unitDraw seed (4 * n + i)
    hourU := unitDraw seed (5 * n + i)
    staffU := unitDraw seed (6 * n + i)
    inquiryU := unitDraw seed (7 * n + i)
    studentU := unitDraw seed (8 * n + i)
    baseWait := unitDraw seed (9 * n + i)
    baseService := unitDraw seed (10 * n + i)
    resolutionU := unitDraw seed (11 * n + i)
    baseSat := unitDraw seed (12 * n + i)
    callbackU := unitDraw seed (13 * n + i) }

/-- The full generated table: `n` rows from the source seeded once with
`seed` (lines 11–135). -/
def generateTable (seed n : ℕ) : List Row :=
  (List.range n).map fun i => genRow i (drawsFor seed n i)

/-!
## Helper lemmas
-/

/-- A fixed concrete row used to instantiate claims at explicit inputs. -/
def sampleRow (w sat : ℚ) : Row :=
  { inquiry_id := 10001
    department := "Registrar"
    inquiry_type := "Add/Drop"
    channel := "Phone"
    student_type := "Undergraduate"
    quarter := "Fall 2024"
    month := "Sep"
    day_of_week := "Monday"
    time_slot := "8-10 AM"
    staff_member := "Staff A"
    wait_time_min := w
    service_time_min := 10
    resolution := "Resolved on First Contact"
    escalated := "No"
    callback_required := "No"
    satisfaction_score := sat }

/-- The one-row table of the C3 counterexample: a wait time above 50. -/
def tOver50 : List Row := [sampleRow 60 4]

/-- The two-row table of the C3 witness: wait times 25 and 30. -/
def tAllLate : List Row := [sampleRow 25 4, sampleRow 30 3]

/-- Concrete draws for the C6 witness. -/
def dResA : RowDraws :=
  { deptU := 0, channelU := 0, quarterU := 0, monthU := 0, dayU := 0,
    hourU := 0, staffU := 0, inquiryU := 0, studentU := 0, baseWait := 0,
    baseService := 0, resolutionU := 3/5, baseSat := 0, callbackU := 0 }

/-- Concrete draws for the C6 witness: same resolution draw as `dResA`,
different department draw. -/
def dResB : RowDraws := { dResA with deptU := 1/2 }

/-- Concrete draws for the C9 existential part: the resolution draw picks
"Follow-Up Required" and the callback coin lands on "No". -/
def dFollowUpNo : RowDraws := { dResA with callbackU := 4/5 }

/-- Concrete draws for the C9 witness: resolution "Follow-Up Required"
and the callback coin lands on "Yes". -/
def dFollowUpYes : RowDraws := { dResA with callbackU := 1/2 }

/-- The one-row table of the C8 witness. -/
def tOneRow : List Row := [sampleRow 5 4]

theorem waitBucket_b1 (w : ℚ) :
    waitBucket w = some "0-5 min" ↔ 0 < w ∧ w ≤ 5 := by
  unfold waitBucket
  split_ifs with h1 h2 h3 h4 h5 <;> simp_all

theorem waitBucket_b2 (w : ℚ) :
    waitBucket w = some "5-10 min" ↔ 5 < w ∧ w ≤ 10 := by
  unfold waitBucket
  split_ifs with h1 h2 h3 h4 h5 <;> simp_all

theorem waitBucket_b3 (w : ℚ) :
    waitBucket w = some "10-15 min" ↔ 10 < w ∧ w ≤ 15 := by
  unfold waitBucket
  split_ifs with h1 h2 h3 h4 h5 <;> simp_all <;> intro h <;> linarith

theorem waitBucket_b4 (w : ℚ) :
    waitBucket w = some "15-20 min" ↔ 15 < w ∧ w ≤ 20 := by
  unfold waitBucket
  split_ifs with h1 h2 h3 h4 h5 <;> simp_all <;> intro h <;> linarith

theorem waitBucket_b5 (w : ℚ) :
    waitBucket w = some "20+ min" ↔ 20 < w ∧ w ≤ 50 := by
  unfold waitBucket
  split_ifs with h1 h2 h3 h4 h5 <;> simp_all <;> intro h <;> linarith

theorem bucketRows_eq_filter (t : List Row) (b : String) (P : ℚ → Prop)
    [DecidablePred P] (h : ∀ w, waitBucket w = some b ↔ P w) :
    bucketRows t b = t.filter fun r => decide (P r.wait_time_min) := by
  unfold bucketRows
  apply List.filter_congr
  intro r _
  rw [Bool.eq_iff_iff]
  simp [h r.wait_time_min]

theorem clip_bounds (x lo hi : ℚ) (h : lo ≤ hi) :
    lo ≤ clip x lo hi ∧ clip x lo hi ≤ hi := by
  unfold clip
  exact ⟨le_max_left _ _, max_le h (min_le_right _ _)⟩

theorem rte_lower {q : ℚ} {lo : ℤ} (h : (lo : ℚ) ≤ q) : lo ≤ rte q := by
  have hf : lo ≤ ⌊q⌋ := Int.le_floor.mpr h
  unfold rte
  split_ifs <;> omega

theorem rte_upper {q : ℚ} {hi : ℤ} (h : q ≤ (hi : ℚ)) : rte q ≤ hi := by
  have hf : ⌊q⌋ ≤ hi := by simpa using Int.floor_le_floor h
  have hfl : (⌊q⌋ : ℚ) ≤ q := Int.floor_le q
  unfold rte
  split_ifs with h1 h2 h3
  · exact hf
  · rcases lt_or_eq_of_le hf with hlt | heq
    · omega
    · exfalso
      rw [heq] at h2
      linarith
  · exact hf
  · rcases lt_or_eq_of_le hf with hlt | heq
    · omega
    · exfalso
      rw [heq] at h1
      push_neg at h1
      linarith

theorem round1_clip_range (y lo hi : ℚ) (a b : ℤ) (ha : (a : ℚ) = 10 * lo)
    (hb : (b : ℚ) = 10 * hi) (h : lo ≤ hi) :
    lo ≤ round1 (clip y lo hi) ∧ round1 (clip y lo hi) ≤ hi ∧
      ∃ k : ℤ, round1 (clip y lo hi) = (k : ℚ) / 10 := by
  obtain ⟨hl, hu⟩ := clip_bounds y lo hi h
  have h1 : a ≤ rte (10 * clip y lo hi) := rte_lower (by rw [ha]; linarith)
  have h2 : rte (10 * clip y lo hi) ≤ b := rte_upper (by rw [hb]; linarith)
  have h1' : (a : ℚ) ≤ (rte (10 * clip y lo hi) : ℚ) := by exact_mod_cast h1
  have h2' : (rte (10 * clip y lo hi) : ℚ) ≤ (b : ℚ) := by exact_mod_cast h2
  unfold round1
  refine ⟨by rw [le_div_iff₀ (by norm_num : (0:ℚ) < 10)]; linarith,
    by rw [div_le_iff₀ (by norm_num : (0:ℚ) < 10)]; linarith,
    ⟨rte (10 * clip y lo hi), rfl⟩⟩

/-!
## Claims
-/

/-- C4: for every generated row, `escalated == "Yes"` if and only if
`resolution == "Escalated to Department"` (generator line 110). -/
theorem C4_escalated_iff (i : ℕ) (d : RowDraws) :
    (genRow i d).escalated = "Yes" ↔
      (genRow i d).resolution = "Escalated to Department" := by
  show escalatedOf (choice resolutionDist d.resolutionU) = "Yes" ↔
    choice resolutionDist d.resolutionU = "Escalated to Department"
  unfold escalatedOf
  split_ifs with h <;> simp [h]

/-- C10: the analytics report leaves every original column of every loaded
row unchanged; its only modification of the in-memory table is the one
derived column `wait_bucket` (report line 272). -/
theorem C10_frame_preservation (t : List Row) :
    (addWaitBucket t).map RowB.toRow = t ∧
      ∀ rb ∈ addWaitBucket t,
        rb.wait_bucket = waitBucket rb.toRow.wait_time_min := by
  constructor
  · rw [addWaitBucket, List.map_map]
    exact List.map_id t
  · intro rb hrb
    rcases List.mem_map.mp hrb with ⟨r, _, rfl⟩
    rfl

/-- C2, counterexample: the claim says the correlation significance flag
is set exactly when `p < 0.05` regardless of the sign of `r`; at
`r = 1/2`, `p = 1/100` the code reports "Not significant" although
`p < 0.05` (report line 269). -/
theorem C2_counterexample :
    ¬ (corrVerdict (1/2) (1/100) = "Significant negative correlation" ↔
        (1/100 : ℚ) < 5/100) := by
  have h1 : corrVerdict (1/2) (1/100) = "Not significant" := by
    norm_num [corrVerdict]
  intro h
  have h2 := h.mpr (by norm_num)
  rw [h1] at h2
  exact absurd h2 (by decide)

/-- C2, amended: the t-test flag is set exactly when `p < 0.05`
(line 263), while the correlation flag is set exactly when `r < 0` and
`p < 0.05` (line 269) — a significant positive correlation is reported
as "Not significant". -/
theorem C2_amended_flags (r p : ℚ) :
    (ttestVerdict p = "Yes (p < 0.05)" ↔ p < 5/100) ∧
      (corrVerdict r p = "Significant negative correlation" ↔
        r < 0 ∧ p < 5/100) := by
  constructor
  · unfold ttestVerdict
    split_ifs with h <;> simp [h]
  · unfold corrVerdict
    split_ifs with h <;> simp [h]

/-- C5: every generated row's `wait_time_min` lies in `[0, 45]`,
`service_time_min` in `[2, 40]` and `satisfaction_score` in `[1, 5]`,
each clipped then rounded to one decimal (generator lines 82, 89, 107). -/
theorem C5_metric_ranges (i : ℕ) (d : RowDraws) :
    (0 ≤ (genRow i d).wait_time_min ∧ (genRow i d).wait_time_min ≤ 45 ∧
      ∃ k : ℤ, (genRow i d).wait_time_min = (k : ℚ) / 10) ∧
    (2 ≤ (genRow i d).service_time_min ∧ (genRow i d).service_time_min ≤ 40 ∧
      ∃ k : ℤ, (genRow i d).service_time_min = (k : ℚ) / 10) ∧
    (1 ≤ (genRow i d).satisfaction_score ∧ (genRow i d).satisfaction_score ≤ 5 ∧
      ∃ k : ℤ, (genRow i d).satisfaction_score = (k : ℚ) / 10) := by
  refine ⟨?_, ?_, ?_⟩
  · exact round1_clip_range _ 0 45 0 450 (by norm_num) (by norm_num) (by norm_num)
  · exact round1_clip_range _ 2 40 20 400 (by norm_num) (by norm_num) (by norm_num)
  · exact round1_clip_range _ 1 5 10 50 (by norm_num) (by norm_num) (by norm_num)

/-- C1, counterexample: the claim puts a row with `wait_time_min = 5`
in the "5-10 min" bucket (`5 ≤ 5 < 10`), but `pd.cut`'s right-closed
intervals put it in the "0-5 min" bucket (report lines 272–274). -/
theorem C1_counterexample :
    ((5 : ℚ) ≤ 5 ∧ (5 : ℚ) < 10) ∧
      bucketCount [sampleRow 5 4] "5-10 min" = 0 ∧
      bucketCount [sampleRow 5 4] "0-5 min" = 1 := by
  refine ⟨by norm_num, ?_, ?_⟩ <;> decide

/-- C1, amended: the `sat_by_wait` view partitions rows by the
right-closed buckets `(0,5], (5,10], (10,15], (15,20], (20,50]` — a value
of exactly 0, or above 50, falls in no bucket — and reports each bucket's
row count and mean satisfaction (report lines 272–282). -/
theorem C1_amended_buckets (t : List Row) :
    (bucketCount t "0-5 min" =
        (t.filter fun r => decide (0 < r.wait_time_min ∧ r.wait_time_min ≤ 5)).length ∧
      bucketCount t "5-10 min" =
        (t.filter fun r => decide (5 < r.wait_time_min ∧ r.wait_time_min ≤ 10)).length ∧
      bucketCount t "10-15 min" =
        (t.filter fun r => decide (10 < r.wait_time_min ∧ r.wait_time_min ≤ 15)).length ∧
      bucketCount t "15-20 min" =
        (t.filter fun r => decide (15 < r.wait_time_min ∧ r.wait_time_min ≤ 20)).length ∧
      bucketCount t "20+ min" =
        (t.filter fun r => decide (20 < r.wait_time_min ∧ r.wait_time_min ≤ 50)).length) ∧
    (bucketMeanSat t "0-5 min" =
        ((t.filter fun r => decide (0 < r.wait_time_min ∧ r.wait_time_min ≤ 5)).map
            Row.satisfaction_score).sum /
          (t.filter fun r => decide (0 < r.wait_time_min ∧ r.wait_time_min ≤ 5)).length ∧
      bucketMeanSat t "20+ min" =
        ((t.filter fun r => decide (20 < r.wait_time_min ∧ r.wait_time_min ≤ 50)).map
            Row.satisfaction_score).sum /
          (t.filter fun r => decide (20 < r.wait_time_min ∧ r.wait_time_min ≤ 50)).length) := by
  have e1 := bucketRows_eq_filter t "0-5 min" _ waitBucket_b1
  have e2 := bucketRows_eq_filter t "5-10 min" _ waitBucket_b2
  have e3 := bucketRows_eq_filter t "10-15 min" _ waitBucket_b3
  have e4 := bucketRows_eq_filter t "15-20 min" _ waitBucket_b4
  have e5 := bucketRows_eq_filter t "20+ min" _ waitBucket_b5
  unfold bucketMeanSat bucketCount
  rw [e1, e2, e3, e4, e5]
  exact ⟨⟨rfl, rfl, rfl, rfl, rfl⟩, rfl, rfl⟩

/-- C3, counterexample: in the table `tOver50` every row has
`wait_time_min > 20`, yet the "20+ min" bucket is empty rather than
holding all rows — `pd.cut`'s last interval is `(20, 50]`, so a wait of
60 falls in no bucket (report lines 272–282). -/
theorem C3_counterexample :
    (tOver50.all fun r => decide (20 < r.wait_time_min)) = true ∧
      bucketCount tOver50 "20+ min" = 0 ∧ tOver50.length = 1 := by
  refine ⟨?_, ?_, rfl⟩ <;> decide

/-- C3, amended: for every table in which every row's wait time lies in
`(20, 50]` — in particular any generator output, whose waits are at most
45 — the "20+ min" bucket holds all rows, its mean satisfaction is the
global mean, and the other four buckets are empty. -/
theorem C3_amended_single_bucket (t : List Row)
    (h : ∀ r ∈ t, 20 < r.wait_time_min ∧ r.wait_time_min ≤ 50) :
    bucketCount t "20+ min" = t.length ∧
      bucketMeanSat t "20+ min" = (t.map Row.satisfaction_score).sum / t.length ∧
      bucketCount t "0-5 min" = 0 ∧ bucketCount t "5-10 min" = 0 ∧
      bucketCount t "10-15 min" = 0 ∧ bucketCount t "15-20 min" = 0 := by
  have hall : bucketRows t "20+ min" = t := by
    unfold bucketRows
    apply List.filter_eq_self.mpr
    intro r hr
    simpa [waitBucket_b5] using h r hr
  have hempty : ∀ b : String, b ≠ "20+ min" →
      (∀ w : ℚ, waitBucket w = some b → ¬(20 < w ∧ w ≤ 50)) →
      bucketRows t b = [] := by
    intro b _ hcontra
    unfold bucketRows
    apply List.filter_eq_nil_iff.mpr
    intro r hr
    simp only [beq_iff_eq]
    intro hw
    exact hcontra r.wait_time_min hw (h r hr)
  refine ⟨?_, ?_, ?_, ?_, ?_, ?_⟩
  · unfold bucketCount; rw [hall]
  · unfold bucketMeanSat bucketCount; rw [hall]
  · unfold bucketCount
    rw [hempty "0-5 min" (by decide)
      (fun w hw => by rw [waitBucket_b1] at hw; intro hc; linarith [hw.2, hc.1])]
    rfl
  · unfold bucketCount
    rw [hempty "5-10 min" (by decide)
      (fun w hw => by rw [waitBucket_b2] at hw; intro hc; linarith [hw.2, hc.1])]
    rfl
  · unfold bucketCount
    rw [hempty "10-15 min" (by decide)
      (fun w hw => by rw [waitBucket_b3] at hw; intro hc; linarith [hw.2, hc.1])]
    rfl
  · unfold bucketCount
    rw [hempty "15-20 min" (by decide)
      (fun w hw => by rw [waitBucket_b4] at hw; intro hc; linarith [hw.2, hc.1])]
    rfl

/-- C3, witness: the amended claim evaluated on a concrete two-row table
whose wait times are 25 and 30 minutes. -/
theorem C3_witness :
    bucketCount tAllLate "20+ min" = tAllLate.length ∧
      bucketMeanSat tAllLate "20+ min" =
        (tAllLate.map Row.satisfaction_score).sum / tAllLate.length ∧
      bucketCount tAllLate "0-5 min" = 0 ∧ bucketCount tAllLate "5-10 min" = 0 ∧
      bucketCount tAllLate "10-15 min" = 0 ∧
      bucketCount tAllLate "15-20 min" = 0 :=
  C3_amended_single_bucket tAllLate (by
    intro r hr
    simp only [tAllLate, List.mem_cons, List.not_mem_nil, or_false] at hr
    rcases hr with rfl | rfl <;> constructor <;> norm_num [sampleRow])

/-- C6: the resolution field is drawn from the fixed prior
`(0.55, 0.20, 0.15, 0.10)` as a function of its own draw alone — two rows
whose resolution draws agree have equal resolutions whatever their other
draws (hence department assignments) are — and the computed `fcr_boost`
table affects no field of the output row (generator lines 92–99). -/
theorem C6_resolution_independent :
    (∀ (b : String → ℚ) (i : ℕ) (d : RowDraws),
        (genRowWithBoost b i d).resolution = choice resolutionDist d.resolutionU) ∧
    (∀ (b : String → ℚ) (i j : ℕ) (d d' : RowDraws),
        d.resolutionU = d'.resolutionU →
        (genRowWithBoost b i d).resolution = (genRowWithBoost b j d').resolution) ∧
    (∀ (b b' : String → ℚ) (i : ℕ) (d : RowDraws),
        genRowWithBoost b i d = genRowWithBoost b' i d) := by
  refine ⟨fun b i d => rfl, fun b i j d d' h => ?_, fun b b' i d => rfl⟩
  show choice resolutionDist d.resolutionU = choice resolutionDist d'.resolutionU
  rw [h]

/-- C6, witness: two draw vectors differing in the department draw but
agreeing on the resolution draw produce the same resolution. -/
theorem C6_witness :
    dResA.resolutionU = dResB.resolutionU ∧
      (genRowWithBoost fcr_boost 0 dResA).resolution =
        (genRowWithBoost fcr_boost 1 dResB).resolution :=
  ⟨rfl, C6_resolution_independent.2.1 fcr_boost 0 1 dResA dResB rfl⟩

/-- C7: the generator is deterministic in its seed and count — two runs
with equal seed and equal count produce equal tables, row for row and
column for column (generator lines 11–12, 118–135). -/
theorem C7_generator_deterministic (s₁ s₂ n₁ n₂ : ℕ) (hs : s₁ = s₂)
    (hn : n₁ = n₂) :
    generateTable s₁ n₁ = generateTable s₂ n₂ ∧
      ∀ i : ℕ, (generateTable s₁ n₁).get? i = (generateTable s₂ n₂).get? i := by
  subst hs; subst hn
  exact ⟨rfl, fun _ => rfl⟩

/-- C7, witness: the determinism theorem applied at seed 42 and count 3. -/
theorem C7_witness : generateTable 42 3 = generateTable 42 3 :=
  (C7_generator_deterministic 42 42 3 3 rfl rfl).1

/-- C9: for every generated row, `callback_required == "Yes"` implies
`resolution == "Follow-Up Required"`; the converse fails — a witness row
has resolution "Follow-Up Required" yet `callback_required == "No"`
(generator lines 113–115). -/
theorem C9_callback_implies_followup :
    (∀ (i : ℕ) (d : RowDraws), (genRow i d).callback_required = "Yes" →
        (genRow i d).resolution = "Follow-Up Required") ∧
    (∃ d : RowDraws, (genRow 0 d).resolution = "Follow-Up Required" ∧
        (genRow 0 d).callback_required = "No") := by
  constructor
  · intro i d h
    by_cases hr : choice resolutionDist d.resolutionU = "Follow-Up Required"
    · exact hr
    · exfalso
      have hno : (genRow i d).callback_required = "No" := by
        show callbackOf (choice resolutionDist d.resolutionU) _ = "No"
        unfold callbackOf
        rw [if_neg hr]
      rw [h] at hno
      exact absurd hno (by decide)
  · refine ⟨dFollowUpNo, ?_, ?_⟩
    · show choice resolutionDist dFollowUpNo.resolutionU = "Follow-Up Required"
      norm_num [dFollowUpNo, dResA, choice, resolutionDist]
    · show callbackOf (choice resolutionDist dFollowUpNo.resolutionU)
        (choice [("Yes", 70/100), ("No", 30/100)] dFollowUpNo.callbackU) = "No"
      have h1 : choice resolutionDist dFollowUpNo.resolutionU =
          "Follow-Up Required" := by
        norm_num [dFollowUpNo, dResA, choice, resolutionDist]
      have h2 : choice [("Yes", 70/100), ("No", 30/100)] dFollowUpNo.callbackU =
          "No" := by
        norm_num [dFollowUpNo, dResA, choice]
      rw [h1, h2, callbackOf, if_pos rfl]

/-- C9, witness: the implication applied to a concrete row whose callback
flag is "Yes". -/
theorem C9_witness : (genRow 0 dFollowUpYes).resolution = "Follow-Up Required" :=
  C9_callback_implies_followup.1 0 dFollowUpYes (by
    show callbackOf (choice resolutionDist dFollowUpYes.resolutionU)
      (choice [("Yes", 70/100), ("No", 30/100)] dFollowUpYes.callbackU) = "Yes"
    have h1 : choice resolutionDist dFollowUpYes.resolutionU =
        "Follow-Up Required" := by
      norm_num [dFollowUpYes, dResA, choice, resolutionDist]
    have h2 : choice [("Yes", 70/100), ("No", 30/100)] dFollowUpYes.callbackU =
        "Yes" := by
      norm_num [dFollowUpYes, dResA, choice]
    rw [h1, h2, callbackOf, if_pos rfl])

theorem countBy_eq_count (t : List Row) (f : Row → String) (v : String) :
    countBy t f v = (t.map f).count v := by
  unfold countBy
  rw [List.count_eq_countP, List.countP_map, List.countP_eq_length_filter]
  rfl

theorem dedup_toFinset (l : List String) : l.dedup.toFinset = l.toFinset := by
  ext a
  simp

theorem sum_groupKeys_countBy (t : List Row) (f : Row → String) :
    ((groupKeys t f).map fun v => countBy t f v).sum = t.length := by
  unfold groupKeys
  rw [List.map_congr_left fun v _ => countBy_eq_count t f v]
  rw [← List.sum_toFinset _ (List.nodup_dedup (t.map f)), dedup_toFinset,
    List.sum_toFinset_count_eq_length, List.length_map]

theorem sum_map_cast_div_mul (l : List String) (g : String → ℕ) (a : ℚ) :
    (l.map fun v => (g v : ℚ) / a * 100).sum = ((l.map g).sum : ℚ) / a * 100 := by
  induction l with
  | nil => simp
  | cons x xs ih => simp [ih, add_div, add_mul]

theorem rte_abs_le (q : ℚ) : |(rte q : ℚ) - q| ≤ 1/2 := by
  have hf : (⌊q⌋ : ℚ) ≤ q := Int.floor_le q
  have hf1 : q < (⌊q⌋ : ℚ) + 1 := Int.lt_floor_add_one q
  unfold rte
  split_ifs with h1 h2 h3 <;>
    · try push_neg at h1 h2
      rw [abs_le]
      push_cast
      constructor <;> linarith

theorem round2_abs_le (x : ℚ) : |round2 x - x| ≤ 1/200 := by
  have h := rte_abs_le (100 * x)
  rw [abs_le] at h ⊢
  unfold round2
  constructor <;> [linarith [h.1]; linarith [h.2]]

theorem sum_abs_sub_le (l : List String) (f g : String → ℚ) (ε : ℚ)
    (h : ∀ c ∈ l, |f c - g c| ≤ ε) :
    |(l.map f).sum - (l.map g).sum| ≤ (l.length : ℚ) * ε := by
  induction l with
  | nil => simp
  | cons x xs ih =>
    simp only [List.map_cons, List.sum_cons, List.length_cons]
    have h1 := h x (List.mem_cons_self x xs)
    have h2 := ih fun c hc => h c (List.mem_cons_of_mem x hc)
    have hsplit : f x + (xs.map f).sum - (g x + (xs.map g).sum) =
        (f x - g x) + ((xs.map f).sum - (xs.map g).sum) := by ring
    rw [hsplit]
    calc |(f x - g x) + ((xs.map f).sum - (xs.map g).sum)|
        ≤ |f x - g x| + |(xs.map f).sum - (xs.map g).sum| := abs_add _ _
      _ ≤ ε + (xs.length : ℚ) * ε := add_le_add h1 h2
      _ = ((xs.length : ℚ) + 1) * ε := by ring
      _ = ((xs.length + 1 : ℕ) : ℚ) * ε := by push_cast; ring

/-- C8, counterexample: on the empty table the channel view has no
groups, so its reported per-channel percentage shares sum to 0 — not
100, nor anything within rounding of 100 (report lines 162–169). -/
theorem C8_counterexample :
    ((groupKeys ([] : List Row) Row.channel).map fun c =>
        channelPctR [] c).sum = 0 ∧ (0 : ℚ) ≠ 100 := by
  constructor
  · rfl
  · norm_num

/-- C8, amended: for every table the per-department volumes of
`dept_kpis` sum to the total row count; for every nonempty table the
per-channel shares of `channel_stats` sum to 100 up to rounding — the
values of the line-164 lambda sum to exactly 100, and the shares the
view reports after line 169's `.round(2)` sum to within 0.005 per
channel group of 100 (report lines 58–64 and 162–169). -/
theorem C8_amended_sums (t : List Row) :
    ((groupKeys t Row.department).map fun d => deptVolume t d).sum = t.length ∧
      (t ≠ [] →
        ((groupKeys t Row.channel).map fun c => channelPct t c).sum = 100 ∧
        |((groupKeys t Row.channel).map fun c => channelPctR t c).sum - 100| ≤
          ((groupKeys t Row.channel).length : ℚ) * (1/200)) := by
  constructor
  · exact sum_groupKeys_countBy t Row.department
  · intro hne
    have hlen : ((t.length : ℕ) : ℚ) ≠ 0 := by
      exact_mod_cast fun h => hne (List.length_eq_zero.mp h)
    have hexact : ((groupKeys t Row.channel).map fun c => channelPct t c).sum = 100 := by
      unfold channelPct
      rw [sum_map_cast_div_mul (groupKeys t Row.channel) (countBy t Row.channel)
        (t.length : ℚ), sum_groupKeys_countBy t Row.channel]
      field_simp
    refine ⟨hexact, ?_⟩
    have hbound := sum_abs_sub_le (groupKeys t Row.channel)
      (fun c => channelPctR t c) (fun c => channelPct t c) (1/200)
      (fun c _ => round2_abs_le (channelPct t c))
    rwa [hexact] at hbound

/-- C8, witness: the amended claim applied to a concrete one-row table. -/
theorem C8_witness :
    tOneRow ≠ [] ∧
      ((groupKeys tOneRow Row.channel).map fun c => channelPct tOneRow c).sum = 100 ∧
      |((groupKeys tOneRow Row.channel).map fun c => channelPctR tOneRow c).sum - 100| ≤
        ((groupKeys tOneRow Row.channel).length : ℚ) * (1/200) :=
  ⟨List.cons_ne_nil _ _, (C8_amended_sums tOneRow).2 (List.cons_ne_nil _ _)⟩
